import Mathlib

/-!
Shallow embedding of the OWASP mobile-security checker scripts
(scan_hardcoded_secrets.py, analyze_storage_security.py,
check_network_security.py, check_dependencies.py).

Python text processing is modelled over `List Char` with structurally
recursive helpers so that every definition reduces in the kernel.
File contents are `Except String String`: `.error e` models a read that
raises an exception with message `e`, `.ok c` a successful read.
-/

/-- Python `str.isspace` for the ASCII whitespace characters. -/
def pyIsSpace (c : Char) : Bool :=
  c == ' ' || c == '\t' || c == '\n' || c == '\r' || c == '\x0b' || c == '\x0c'

/-- Python `str.strip()` on a character list. -/
def pyStripL (l : List Char) : List Char :=
  ((l.dropWhile pyIsSpace).reverse.dropWhile pyIsSpace).reverse

/-- Python `line.strip()` on strings. -/
def pyStripS (s : String) : String :=
  String.mk (pyStripL s.toList)

/-- Python `content.split('\n')` (keeps empty chunks, always nonempty result). -/
def splitOnNl : List Char → List (List Char)
  | [] => [[]]
  | c :: t =>
    let r := splitOnNl t
    if c == '\n' then [] :: r
    else
      match r with
      | h :: t2 => (c :: h) :: t2
      | [] => [[c]]

/-- Python `content.split('\n')` on strings. -/
def pySplitLines (s : String) : List String :=
  (splitOnNl s.toList).map String.mk

/-- Python `s.startswith(pre)`. -/
def startsWith2 (s pre : String) : Bool :=
  pre.toList.isPrefixOf s.toList

/-- Python substring membership `sub in hay` on character lists. -/
def listContains : List Char → List Char → Bool
  | [], sub => sub.isEmpty
  | c :: t, sub => sub.isPrefixOf (c :: t) || listContains t sub

/-- Python substring membership `sub in hay` on strings. -/
def containsSub (hay sub : String) : Bool :=
  listContains hay.toList sub.toList

/-- Python `s.lower()` (ASCII as used by the scanners). -/
def pyLower (s : String) : String :=
  String.mk (s.toList.map Char.toLower)

/-- `re.search` helper: does some suffix of the text satisfy the
match-at-this-position predicate?  (Includes the empty suffix, as
Python regex search also tries the end-of-string position.) -/
def existsSuffix (p : List Char → Bool) : List Char → Bool
  | [] => p []
  | c :: t => p (c :: t) || existsSuffix p t

/-- Drop everything up to and including the first occurrence of `needle`;
`none` when `needle` does not occur. -/
def dropAfterFirst : List Char → List Char → Option (List Char)
  | [], needle => if needle.isEmpty then some [] else none
  | c :: t, needle =>
    if needle.isPrefixOf (c :: t) then some ((c :: t).drop needle.length)
    else dropAfterFirst t needle

/-- Matches a regex of the shape `lit1.*lit2.*...litN` (existence of the
literals in order).  Used to transcribe the multi-literal regexes of the
network checker. -/
def seqInOrder : List Char → List String → Bool
  | _, [] => true
  | hay, needle :: rest =>
    match dropAfterFirst hay needle.toList with
    | some r => seqInOrder r rest
    | none => false

/-- Single-quote character, used by the quote classes of the scanners. -/
def squote : Char := Char.ofNat 39

/-- Character class `["\']` used by several source regexes. -/
def isQuote (c : Char) : Bool := c == '"' || c == squote

/-- Python slice `l[a:b]` (as used for the context window; `a ≤ b`). -/
def pySlice (l : List String) (a b : Nat) : List String :=
  (l.drop a).take (b - a)

/-- Python `'\n'.join(l)`. -/
def joinNl : List String → String
  | [] => ""
  | [l] => l
  | l :: t => l ++ "\n" ++ joinNl t

/-! ### scan_hardcoded_secrets.py -/

/-- Transcribes the false-positive regex `<.*>`: after a `<`, a `>` is
reachable without crossing a newline ( `.` does not match `\n`). -/
def angleClose : List Char → Bool
  | [] => false
  | c :: t => c == '>' || (c != '\n' && angleClose t)

/-- Search part of the `<.*>` transcription. -/
def hasAngle : List Char → Bool
  | [] => false
  | c :: t => (c == '<' && angleClose t) || hasAngle t

/-- Closing part of the template-variable false-positive regex: a closing
brace reachable without crossing a newline. -/
def braceClose : List Char → Bool
  | [] => false
  | c :: t => c == '\x7d' || (c != '\n' && braceClose t)

/-- Transcribes the template-variable false-positive regex (a dollar sign,
an opening brace, then a closing brace reachable without a newline). -/
def hasTemplate : List Char → Bool
  | [] => false
  | c :: t =>
    (c == '$' &&
      (match t with
       | b :: u => b == '\x7b' && braceClose u
       | [] => false)) || hasTemplate t

/-- `is_false_positive` from scan_hardcoded_secrets.py: the captured value
is lowercased and each FALSE_POSITIVE_PATTERNS entry is searched
case-insensitively.  The character-class entry `your[_-]api[_-]key`
(and its uppercase duplicate) is expanded into its four instances. -/
def is_false_positive (value : String) : Bool :=
  let v := pyLower value
  containsSub v "example.com" ||
  containsSub v "your_api_key" || containsSub v "your_api-key" ||
  containsSub v "your-api_key" || containsSub v "your-api-key" ||
  hasAngle v.toList ||
  hasTemplate v.toList ||
  containsSub v "fixme" ||
  containsSub v "todo" ||
  containsSub v "dummy" ||
  containsSub v "test" ||
  containsSub v "sample" ||
  containsSub v "placeholder"

/-- One scanned file: its path and the outcome of reading it
(`.error e` models an I/O exception with message `e`). -/
structure SFile where
  path : String
  content : Except String String
deriving Repr

/-- A secrets finding, as the Python dict built in scan_file
(keys file, line, type, pattern, severity). -/
structure SecretFinding where
  file : String
  line : Nat
  type : String
  pattern : String
  severity : String
deriving Repr, DecidableEq

/-- A SECRET_PATTERNS entry: the human label and, abstracting the regex
engine, the list of captured values (`group(1)` if the pattern has a
group, else `group(0)`) that `re.finditer` yields on a line. -/
structure SecretRule where
  label : String
  matchesOn : String → List String

/-- Emission of a single regex match in scan_file: false positives are
skipped, otherwise a HIGH finding is built. -/
def emit_match (path : String) (line_num : Nat) (label line value : String) :
    Option SecretFinding :=
  if is_false_positive value then none
  else some { file := path, line := line_num, type := label,
              pattern := pyStripS line, severity := "HIGH" }

/-- Per-line body of scan_file: comment lines (trimmed line starting with
the single-line or block comment marker) are skipped, otherwise every
pattern's matches are emitted through the false-positive filter. -/
def scan_line (rules : List SecretRule) (path : String) (line_num : Nat)
    (line : String) : List SecretFinding :=
  if startsWith2 (pyStripS line) "//" || startsWith2 (pyStripS line) "/*" then []
  else rules.flatMap fun r =>
    (r.matchesOn line).filterMap fun value => emit_match path line_num r.label line value

/-- scan_file from scan_hardcoded_secrets.py: a read error is caught and
yields no findings; otherwise the content is split into 1-based lines
and each line is scanned. -/
def scan_file (rules : List SecretRule) (f : SFile) : List SecretFinding :=
  match f.content with
  | .error _ => []
  | .ok content =>
    (pySplitLines content).enum.flatMap fun p => scan_line rules f.path (p.1 + 1) p.2

/-- The operator log line printed by scan_file when reading raises. -/
def scan_file_log (f : SFile) : List String :=
  match f.content with
  | .error e => ["Error scanning " ++ f.path ++ ": " ++ e]
  | .ok _ => []

/-- The result dict built by scan_project in scan_hardcoded_secrets.py. -/
structure SecretScanResult where
  total_files_scanned : Nat
  total_findings : Nat
  findings : List SecretFinding
deriving Repr, DecidableEq

/-- scan_project from scan_hardcoded_secrets.py: the dart/gradle/plist
glob results are concatenated and each file is scanned. -/
def secrets_scan_project (rules : List SecretRule)
    (dart_files gradle_files plist_files : List SFile) : SecretScanResult :=
  let files_to_scan := dart_files ++ gradle_files ++ plist_files
  let all_findings := files_to_scan.flatMap (scan_file rules)
  { total_files_scanned := files_to_scan.length,
    total_findings := all_findings.length,
    findings := all_findings }

/-- Exit status of main in scan_hardcoded_secrets.py:
1 when any finding exists, else 0. -/
def secrets_main (rules : List SecretRule)
    (dart_files gradle_files plist_files : List SFile) : Nat :=
  if (secrets_scan_project rules dart_files gradle_files plist_files).total_findings > 0
  then 1 else 0

/-! ### analyze_storage_security.py -/

/-- A finding dict as built by the storage and network scanners
(keys file, line, issue, code, severity, recommendation). -/
structure Finding where
  file : String
  line : Nat
  issue : String
  code : String
  severity : String
  recommendation : String
deriving Repr, DecidableEq

/-- Transcribes the first sensitive SharedPreferences regex: `setString(`
followed by a quote, one of the keywords token/auth/password/secret/key/
credential, and a quote (searched with IGNORECASE, hence on the
lowercased line). -/
def sp_pattern1 (line : String) : Bool :=
  existsSuffix (fun s =>
    "setstring(".toList.isPrefixOf s &&
    (match s.drop 10 with
     | q :: r2 => isQuote q &&
         (["token", "auth", "password", "secret", "key", "credential"].any fun kw =>
           kw.toList.isPrefixOf r2 &&
           (match r2.drop kw.length with
            | c :: _ => isQuote c
            | [] => false))
     | [] => false))
    (pyLower line).toList

/-- Transcribes the second sensitive SharedPreferences regex: `setString(`,
a quote, then api/jwt/bearer somewhere, then a later quote (IGNORECASE). -/
def sp_pattern2 (line : String) : Bool :=
  existsSuffix (fun s =>
    "setstring(".toList.isPrefixOf s &&
    (match s.drop 10 with
     | q :: r2 => isQuote q &&
         existsSuffix (fun u =>
           ["api", "jwt", "bearer"].any fun kw =>
             kw.toList.isPrefixOf u && (u.drop kw.length).any isQuote) r2
     | [] => false))
    (pyLower line).toList

/-- Transcribes the third sensitive SharedPreferences regex: `setInt(`
followed by a quoted pin/otp/code keyword (IGNORECASE). -/
def sp_pattern3 (line : String) : Bool :=
  existsSuffix (fun s =>
    "setint(".toList.isPrefixOf s &&
    (match s.drop 7 with
     | q :: r2 => isQuote q &&
         (["pin", "otp", "code"].any fun kw =>
           kw.toList.isPrefixOf r2 &&
           (match r2.drop kw.length with
            | c :: _ => isQuote c
            | [] => false))
     | [] => false))
    (pyLower line).toList

/-- The sensitive_patterns table of scan_shared_preferences_usage. -/
def sensitive_patterns : List ((String → Bool) × String) :=
  [(sp_pattern1, "Token/Credential storage"),
   (sp_pattern2, "API key storage"),
   (sp_pattern3, "PIN/OTP storage")]

/-- scan_shared_preferences_usage from analyze_storage_security.py.
NOTE: the per-line loop of this function has no comment-line skipping. -/
def scan_shared_preferences_usage (f : SFile) : List Finding :=
  match f.content with
  | .error _ => []
  | .ok content =>
    if containsSub content "package:shared_preferences" then
      (pySplitLines content).enum.flatMap fun p =>
        sensitive_patterns.flatMap fun pr =>
          if pr.1 p.2 then
            [{ file := f.path, line := p.1 + 1,
               issue := pr.2 ++ " in unencrypted SharedPreferences",
               code := pyStripS p.2, severity := "HIGH",
               recommendation := "Use flutter_secure_storage instead" }]
          else []
    else []

/-- Transcribes the file-write regexes of scan_file_storage: `File(`, then
`mid` (the close-paren plus the write method name and open paren), with a
negative lookahead rejecting the match if `encrypt` occurs afterwards on
the line. -/
def file_write_pattern (mid : String) (line : String) : Bool :=
  existsSuffix (fun s =>
    "File(".toList.isPrefixOf s &&
    existsSuffix (fun u =>
      mid.toList.isPrefixOf u &&
      !(listContains (u.drop mid.toList.length) "encrypt".toList))
      (s.drop 5))
    line.toList

/-- The insecure_patterns table of scan_file_storage. -/
def insecure_patterns : List ((String → Bool) × String) :=
  [(file_write_pattern ").writeAsString(", "Unencrypted file write"),
   (file_write_pattern ").writeAsBytes(", "Unencrypted file write"),
   (fun line => listContains line.toList "openWrite(".toList,
    "Potentially unencrypted stream write")]

/-- The context window of scan_file_storage around 0-based line index `i`
(Python `lines[max(0, line_num - 3):min(len(lines), line_num + 3)]`
joined with newlines, where line_num = i + 1). -/
def storage_context (lines : List String) (i : Nat) : String :=
  joinNl (pySlice lines (i + 1 - 3) (i + 1 + 3))

/-- scan_file_storage from analyze_storage_security.py.  A matched line is
reported (MEDIUM) only when `encrypt` is absent from the surrounding
context window.  No comment-line skipping. -/
def scan_file_storage (f : SFile) : List Finding :=
  match f.content with
  | .error _ => []
  | .ok content =>
    let lines := pySplitLines content
    lines.enum.flatMap fun p =>
      insecure_patterns.flatMap fun pr =>
        if pr.1 p.2 then
          if !(containsSub (pyLower (storage_context lines p.1)) "encrypt") then
            [{ file := f.path, line := p.1 + 1, issue := pr.2,
               code := pyStripS p.2, severity := "MEDIUM",
               recommendation := "Encrypt sensitive data before writing to files" }]
          else []
        else []

/-- Transcribes the raw-SQL regex of scan_database_security: `rawQuery(`,
a quote, `SELECT`, then a dollar sign later on the line (case-sensitive). -/
def db_rawquery_pattern (line : String) : Bool :=
  existsSuffix (fun s =>
    "rawQuery(".toList.isPrefixOf s &&
    (match s.drop 9 with
     | q :: r => isQuote q && "SELECT".toList.isPrefixOf r &&
         (r.drop 6).any (· == '$')
     | [] => false))
    line.toList

/-- The whole-file unencrypted-sqflite finding of scan_database_security.
NOTE: its line number is 1, not 0. -/
def sqflite_finding (path : String) : Finding :=
  { file := path, line := 1, issue := "Unencrypted SQLite database",
    code := "import package:sqflite", severity := "HIGH",
    recommendation := "Consider using sqflite_sqlcipher for encrypted databases" }

/-- scan_database_security from analyze_storage_security.py.
No comment-line skipping in the raw-query loop. -/
def scan_database_security (f : SFile) : List Finding :=
  match f.content with
  | .error _ => []
  | .ok content =>
    let lines := pySplitLines content
    (if containsSub content "package:sqflite" && !(containsSub content "sqflite_sqlcipher")
     then [sqflite_finding f.path] else []) ++
    lines.enum.flatMap fun p =>
      if db_rawquery_pattern p.2 then
        [{ file := f.path, line := p.1 + 1,
           issue := "Potential SQL injection via string interpolation",
           code := pyStripS p.2, severity := "HIGH",
           recommendation := "Use parameterized queries with whereArgs" }]
      else []

/-- The MEDIUM backup-not-configured finding of scan_backup_configuration. -/
def not_configured_finding (path : String) : Finding :=
  { file := path, line := 0, issue := "Backup not explicitly configured",
    code := "<application>", severity := "MEDIUM",
    recommendation := "Set android:allowBackup=\"false\" or configure android:fullBackupContent" }

/-- The HIGH backup-enabled finding of scan_backup_configuration. -/
def backup_enabled_finding (path : String) : Finding :=
  { file := path, line := 0,
    issue := "Full backup enabled - sensitive data may be backed up",
    code := "android:allowBackup=\"true\"", severity := "HIGH",
    recommendation := "Disable backup or use selective backup rules" }

/-- scan_backup_configuration from analyze_storage_security.py.  The
manifest argument is `none` when AndroidManifest.xml does not exist,
`some (.error e)` when reading it raises, `some (.ok content)` otherwise.
The two substring checks are independent. -/
def scan_backup_configuration (manifest_path : String)
    (manifest : Option (Except String String)) : List Finding :=
  match manifest with
  | none => []
  | some (.error _) => []
  | some (.ok content) =>
    (if !(containsSub content "android:allowBackup=\"false\"") &&
        !(containsSub content "android:fullBackupContent")
     then [not_configured_finding manifest_path] else []) ++
    (if containsSub content "android:allowBackup=\"true\""
     then [backup_enabled_finding manifest_path] else [])

/-- The result dict built by scan_project in analyze_storage_security.py. -/
structure StorageScanResult where
  total_files_scanned : Nat
  total_findings : Nat
  findings : List Finding
deriving Repr, DecidableEq

/-- scan_project from analyze_storage_security.py. -/
def storage_scan_project (dart_files : List SFile) (manifest_path : String)
    (manifest : Option (Except String String)) : StorageScanResult :=
  let per_file := dart_files.flatMap fun f =>
    scan_shared_preferences_usage f ++ scan_file_storage f ++ scan_database_security f
  let all_findings := per_file ++ scan_backup_configuration manifest_path manifest
  { total_files_scanned := dart_files.length,
    total_findings := all_findings.length,
    findings := all_findings }

/-- The severity dictionary of the reporters, abstracted to counts per
key (CRITICAL, HIGH, MEDIUM, LOW); `none` models the KeyError raised on
any other severity value. -/
def group_by_severity : List String → Option (Nat × Nat × Nat × Nat)
  | [] => some (0, 0, 0, 0)
  | s :: t =>
    match group_by_severity t with
    | none => none
    | some (c, h, m, l) =>
      if s = "CRITICAL" then some (c + 1, h, m, l)
      else if s = "HIGH" then some (c, h + 1, m, l)
      else if s = "MEDIUM" then some (c, h, m + 1, l)
      else if s = "LOW" then some (c, h, m, l + 1)
      else none

/-- Exit behaviour of main in analyze_storage_security.py: the grouping
step runs only when findings exist (and would crash on a bad severity);
the exit status itself is 1 exactly when any finding exists.  `none`
models a crash before reaching sys.exit. -/
def storage_main (dart_files : List SFile) (manifest_path : String)
    (manifest : Option (Except String String)) : Option Nat :=
  let results := storage_scan_project dart_files manifest_path manifest
  if results.findings.length > 0 then
    match group_by_severity (results.findings.map Finding.severity) with
    | some _ => some (if results.total_findings > 0 then 1 else 0)
    | none => none
  else some (if results.total_findings > 0 then 1 else 0)

/-! ### check_network_security.py -/

/-- An http_patterns entry of scan_http_usage: the issue label and,
abstracting the regex engine, the number of `re.finditer` matches the
pattern yields on a line. -/
structure NetRule where
  label : String
  countMatches : String → Nat

/-- Per-line body of scan_http_usage: lines whose trimmed content starts
with the single-line comment marker are skipped; every match of every
pattern yields one HIGH finding. -/
def scan_http_line (rules : List NetRule) (path : String) (line_num : Nat)
    (line : String) : List Finding :=
  if startsWith2 (pyStripS line) "//" then []
  else rules.flatMap fun r =>
    List.replicate (r.countMatches line)
      { file := path, line := line_num, issue := r.label,
        code := pyStripS line, severity := "HIGH",
        recommendation := "Use HTTPS/WSS instead of HTTP/WS" }

/-- scan_http_usage from check_network_security.py. -/
def scan_http_usage (rules : List NetRule) (f : SFile) : List Finding :=
  match f.content with
  | .error _ => []
  | .ok content =>
    (pySplitLines content).enum.flatMap fun p =>
      scan_http_line rules f.path (p.1 + 1) p.2

/-- Transcribes the disabled-certificate-validation regex of
check_certificate_pinning: the literals badCertificateCallback, an equals
sign, parentheses, an arrow and true in order; since the dot of the
source regex does not cross newlines, a match lies within one line. -/
def bad_cert_regex (content : String) : Bool :=
  (pySplitLines content).any fun line =>
    seqInOrder line.toList ["badCertificateCallback", "=", "(", ")", "=>", "true"]

/-- check_certificate_pinning from check_network_security.py.  Both of
its findings are file-level with line number 0. -/
def check_certificate_pinning (f : SFile) : List Finding :=
  match f.content with
  | .error _ => []
  | .ok content =>
    let has_http_client := containsSub content "HttpClient"
    let has_bad_cert_callback := containsSub content "badCertificateCallback"
    let has_cert_pinning :=
      containsSub content "http_certificate_pinning" ||
      containsSub content "cert_pinning" ||
      containsSub content "ssl_pinning_plugin"
    (if has_bad_cert_callback && bad_cert_regex content then
      [{ file := f.path, line := 0,
         issue := "Certificate validation disabled (accepts all certificates)",
         code := "badCertificateCallback = (...) => true", severity := "CRITICAL",
         recommendation := "Remove this in production or implement proper certificate pinning" }]
     else []) ++
    (if has_http_client && !has_cert_pinning && !has_bad_cert_callback then
      [{ file := f.path, line := 0, issue := "No certificate pinning detected",
         code := "HttpClient usage without pinning", severity := "MEDIUM",
         recommendation := "Consider implementing certificate pinning for sensitive APIs" }]
     else [])

/-- Parse outcome of network_security_config.xml: absent file, a parse
exception, or the parsed document. -/
inductive XmlConfigFile where
  | missing : XmlConfigFile
  | parse_failed : String → XmlConfigFile
  | parsed : Option (Option String) → Nat → XmlConfigFile
deriving Repr, DecidableEq

/-- The MEDIUM missing-configuration finding of
check_android_network_security (note the relative literal path used by
the source for this finding). -/
def network_config_missing_finding : Finding :=
  { file := "android/app/src/main/res/xml/network_security_config.xml",
    line := 0, issue := "Network security configuration not found",
    code := "Missing file", severity := "MEDIUM",
    recommendation := "Create network_security_config.xml to enforce HTTPS and certificate pinning" }

/-- check_android_network_security from check_network_security.py.  For a
parsed document, the first component is the base-config element (outer
Option: element present; inner: its cleartextTrafficPermitted attribute)
and the second is the number of pin-set elements.  A parse exception is
caught and yields no findings. -/
def check_android_network_security (config_path : String)
    (config : XmlConfigFile) : List Finding :=
  match config with
  | .missing => [network_config_missing_finding]
  | .parse_failed _ => []
  | .parsed base_config pin_sets =>
    (match base_config with
     | some cleartext =>
       if cleartext = some "true" then
         [{ file := config_path, line := 0,
            issue := "Cleartext traffic permitted globally",
            code := "cleartextTrafficPermitted=\"true\"", severity := "HIGH",
            recommendation := "Disable cleartext traffic or limit to specific domains" }]
       else []
     | none => []) ++
    (if pin_sets = 0 then
      [{ file := config_path, line := 0,
         issue := "No certificate pinning configured",
         code := "No <pin-set> elements found", severity := "MEDIUM",
         recommendation := "Configure certificate pinning for production APIs" }]
     else [])

/-- Transcribes the ATS regex `NSAllowsArbitraryLoads` then `<true/>`
with DOTALL, i.e. the two literals in order anywhere in the content. -/
def ats_true_regex (content : String) : Bool :=
  seqInOrder content.toList ["NSAllowsArbitraryLoads", "<true/>"]

/-- check_ios_ats_configuration from check_network_security.py.  The
plist argument is `none` when Info.plist does not exist (NOTE: the
function then returns no findings at all), `some (.error e)` when reading
raises (caught, no findings), `some (.ok content)` otherwise. -/
def check_ios_ats_configuration (plist_path : String)
    (plist : Option (Except String String)) : List Finding :=
  match plist with
  | none => []
  | some (.error _) => []
  | some (.ok content) =>
    (if containsSub content "NSAllowsArbitraryLoads" && ats_true_regex content then
      [{ file := plist_path, line := 0,
         issue := "App Transport Security disabled globally",
         code := "NSAllowsArbitraryLoads = true", severity := "CRITICAL",
         recommendation := "Enable ATS and use NSExceptionDomains for specific cases only" }]
     else []) ++
    (if containsSub content "NSAllowsLocalNetworking" then
      [{ file := plist_path, line := 0, issue := "Local networking allowed",
         code := "NSAllowsLocalNetworking", severity := "LOW",
         recommendation := "Ensure this is intentional and only for development" }]
     else [])

/-- The result dict built by scan_project in check_network_security.py. -/
structure NetScanResult where
  total_files_scanned : Nat
  total_findings : Nat
  findings : List Finding
deriving Repr, DecidableEq

/-- scan_project from check_network_security.py: per-Dart-file checks
followed by the two platform-configuration checks; only Dart files are
counted as scanned. -/
def net_scan_project (rules : List NetRule) (dart_files : List SFile)
    (config_path : String) (config : XmlConfigFile)
    (plist_path : String) (plist : Option (Except String String)) : NetScanResult :=
  let per_file := dart_files.flatMap fun f =>
    scan_http_usage rules f ++ check_certificate_pinning f
  let all_findings := per_file ++
    check_android_network_security config_path config ++
    check_ios_ats_configuration plist_path plist
  { total_files_scanned := dart_files.length,
    total_findings := all_findings.length,
    findings := all_findings }

/-- Exit behaviour of main in check_network_security.py: the severity
dictionary is created only inside the nonempty-findings branch, yet the
exit expression reads it unconditionally; with zero findings the name is
undefined and the process crashes (modelled as `none`) instead of
exiting 0.  Otherwise the exit status is 1 exactly when a CRITICAL or
HIGH finding exists. -/
def net_main (rules : List NetRule) (dart_files : List SFile)
    (config_path : String) (config : XmlConfigFile)
    (plist_path : String) (plist : Option (Except String String)) : Option Nat :=
  let results := net_scan_project rules dart_files config_path config plist_path plist
  if results.findings.length > 0 then
    match group_by_severity (results.findings.map Finding.severity) with
    | some (c, h, _, _) => some (if c + h > 0 then 1 else 0)
    | none => none
  else none

/-! ### check_dependencies.py -/

/-- A pubspec dependency value: a YAML string, YAML null (no constraint),
or any other YAML value (such as the sdk mapping used for flutter). -/
inductive PubVal where
  | vstr : String → PubVal
  | vnull : PubVal
  | vother : PubVal
deriving Repr, DecidableEq

/-- The parsed pubspec.yaml: its dependencies and dev_dependencies
mappings (a missing section is the empty list). -/
structure Pubspec where
  dependencies : List (String × PubVal)
  dev_dependencies : List (String × PubVal)
deriving Repr, DecidableEq

/-- Python dict merge of two mappings as in the source's all_deps
construction: keys of the first in order with second-mapping overrides,
then the new keys of the second. -/
def dictMerge (a b : List (String × PubVal)) : List (String × PubVal) :=
  (a.map fun kv =>
    (kv.1, match b.lookup kv.1 with | some w => w | none => kv.2)) ++
  b.filter fun kv => (a.lookup kv.1).isNone

/-- The merged dependency mapping of check_version_constraints. -/
def all_deps (p : Pubspec) : List (String × PubVal) :=
  dictMerge p.dependencies p.dev_dependencies

/-- A dependency finding dict (keys package, issue, severity,
recommendation). -/
structure DepFinding where
  package : String
  issue : String
  severity : String
  recommendation : String
deriving Repr, DecidableEq

/-- The CRITICAL any-constraint finding of check_version_constraints. -/
def any_finding (package : String) : DepFinding :=
  { package := package, issue := "Version constraint set to \"any\"",
    severity := "CRITICAL",
    recommendation := "Use specific version constraints (e.g., ^1.0.0)" }

/-- The HIGH no-constraint finding of check_version_constraints. -/
def no_constraint_finding (package : String) : DepFinding :=
  { package := package, issue := "No version constraint specified",
    severity := "HIGH", recommendation := "Specify a version constraint" }

/-- Loop body of check_version_constraints: the package named flutter is
skipped; the string "any" yields the CRITICAL finding, a null constraint
the HIGH finding. -/
def version_check_step (kv : String × PubVal) : List DepFinding :=
  if kv.1 = "flutter" then []
  else
    match kv.2 with
    | .vstr s => if s = "any" then [any_finding kv.1] else []
    | .vnull => [no_constraint_finding kv.1]
    | .vother => []

/-- check_version_constraints from check_dependencies.py. -/
def check_version_constraints (p : Pubspec) : List DepFinding :=
  (all_deps p).flatMap version_check_step

/-- One entry of the packages list of the flutter-pub-outdated JSON. -/
structure OutPkg where
  package : Option String
  current : Option String
  latest : Option String
  resolvable : Option String
deriving Repr, DecidableEq

/-- An outdated-package finding dict of analyze_outdated_results. -/
structure OutFinding where
  package : Option String
  current_version : Option String
  latest_version : Option String
  resolvable_version : Option String
  severity : String
  issue : String
  recommendation : String
deriving Repr, DecidableEq

/-- Python `int(v.split('.')[0]) if v.split('.')[0].isdigit() else 0`. -/
def major_of (v : String) : Nat :=
  let h := v.toList.takeWhile fun c => !(c == '.')
  if !h.isEmpty && h.all Char.isDigit then
    h.foldl (fun acc c => acc * 10 + (c.toNat - 48)) 0
  else 0

/-- Python truthiness of an optional version string (None and the empty
string are falsy). -/
def pyTruthyStr : Option String → Bool
  | none => false
  | some s => !(s = "")

/-- analyze_outdated_results from check_dependencies.py. -/
def analyze_outdated_results (pkgs : List OutPkg) : List OutFinding :=
  pkgs.flatMap fun p =>
    if p.current ≠ p.latest then
      let severity :=
        if pyTruthyStr p.current && pyTruthyStr p.latest &&
           major_of (p.latest.getD "") > major_of (p.current.getD "")
        then "HIGH" else "MEDIUM"
      [{ package := p.package, current_version := p.current,
         latest_version := p.latest, resolvable_version := p.resolvable,
         severity := severity, issue := "Package is outdated",
         recommendation := "Update to version " ++ p.latest.getD "None" }]
    else []

/-- check_dangerous_packages from check_dependencies.py: the static
dangerous_packages table is probed against the regular dependencies. -/
def check_dangerous_packages (p : Pubspec) : List DepFinding :=
  (if (p.dependencies.lookup "http").isSome then
    [{ package := "http", issue := "Old versions lack important security features",
       severity := "HIGH", recommendation := "Update to the latest stable version" }]
   else []) ++
  (if (p.dependencies.lookup "path_provider").isSome then
    [{ package := "path_provider",
       issue := "Older versions have path traversal vulnerabilities",
       severity := "MEDIUM", recommendation := "Update to the latest stable version" }]
   else [])

/-- The severities of all findings accumulated by main in
check_dependencies.py; the outdated argument is `none` when the
flutter-pub-outdated step degraded to an empty result (tool missing,
timeout, nonzero exit, or an empty JSON object). -/
def deps_severities (p : Pubspec) (outdated : Option (List OutPkg)) : List String :=
  (check_version_constraints p).map DepFinding.severity ++
  (match outdated with
   | some pkgs => (analyze_outdated_results pkgs).map OutFinding.severity
   | none => []) ++
  (check_dangerous_packages p).map DepFinding.severity

/-- Exit behaviour of main in check_dependencies.py.  A missing
pubspec.yaml exits 1.  The severity dictionary is created only inside
the nonempty-findings branch, yet the final exit expression reads it
unconditionally; with zero findings the name is undefined and the
process crashes with NameError (modelled as `none`) instead of exiting 0.
Otherwise the exit status is 1 exactly when a CRITICAL or HIGH finding
exists. -/
def deps_main (pubspec : Option Pubspec) (outdated : Option (List OutPkg)) :
    Option Nat :=
  match pubspec with
  | none => some 1
  | some p =>
    let sevs := deps_severities p outdated
    if sevs.length > 0 then
      match group_by_severity sevs with
      | some (c, h, _, _) => some (if c + h > 0 then 1 else 0)
      | none => none
    else none

/-! ### Sanity examples for the transcribed regexes -/

example : pySplitLines "a\nb" = ["a", "b"] := by decide
example : is_false_positive "your-api-key" = true := by decide
example : is_false_positive "A1b2C3d4E5f6G7h8J9k0" = false := by decide
example : pyStripS "  // x " = "// x" := by decide
example : sp_pattern1 "// prefs.setString(\"token\", \"abc\");" = true := by decide
example : sp_pattern1 "import \"package:shared_preferences/s.dart\";" = false := by decide
example : sp_pattern2 "prefs.setString(\"my_api_v2\", x)" = true := by decide
example : db_rawquery_pattern "db.rawQuery(\"SELECT * FROM t WHERE id = $x\")" = true := by decide
example : file_write_pattern ").writeAsString(" "File(p).writeAsString(data)" = true := by decide
example : file_write_pattern ").writeAsString(" "File(p).writeAsString(encrypt(data))" = false := by decide

/-! ### Helper lemmas -/

/-- Every finding of the version-constraint loop body names the package
of the entry it came from. -/
theorem version_check_step_package (kv : String × PubVal) (f : DepFinding)
    (h : f ∈ version_check_step kv) : f.package = kv.1 := by
  rcases kv with ⟨k, v⟩
  by_cases hk : k = "flutter"
  · simp [version_check_step, hk] at h
  · cases v with
    | vstr s =>
      by_cases hs : s = "any"
      · simp [version_check_step, hk, hs] at h
        subst h; rfl
      · simp [version_check_step, hk, hs] at h
    | vnull =>
      simp [version_check_step, hk] at h
      subst h; rfl
    | vother => simp [version_check_step, hk] at h

/-- The version-constraint loop body emits nothing for flutter. -/
theorem version_check_step_flutter (v : PubVal) :
    version_check_step ("flutter", v) = [] := by
  simp [version_check_step]

/-! ### C2 -/

/-- C2: in the secrets scanner, any regex match whose captured value the
false-positive filter flags is never emitted as a finding; the value
"your-api-key" is flagged; and a scan with only flagged values yields no
findings at all. -/
theorem c2_false_positive_suppression :
    (∀ (path : String) (line_num : Nat) (label line value : String),
      is_false_positive value = true →
      emit_match path line_num label line value = none)
    ∧ is_false_positive "your-api-key" = true
    ∧ (∀ (rules : List SecretRule) (f : SFile),
      (∀ r ∈ rules, ∀ (line value : String),
        value ∈ r.matchesOn line → is_false_positive value = true) →
      scan_file rules f = []) := by
  refine ⟨?_, by decide, ?_⟩
  · intro path n label line value h
    simp [emit_match, h]
  · intro rules f h
    rcases f with ⟨p, c⟩
    cases c with
    | error e => rfl
    | ok content =>
      simp only [scan_file]
      rw [List.flatMap_eq_nil_iff]
      intro q _
      unfold scan_line
      split
      · rfl
      · rw [List.flatMap_eq_nil_iff]
        intro r hr
        rw [List.filterMap_eq_nil_iff]
        intro value hv
        simp [emit_match, h r hr q.2 value hv]

/-- Witness for C2 at a concrete rule whose only captured value is the
placeholder "your-api-key". -/
theorem c2_false_positive_suppression_witness :
    emit_match "lib/a.dart" 1 "API Key" "k = \"your-api-key\"" "your-api-key" = none
    ∧ scan_file [⟨"API Key", fun _ => ["your-api-key"]⟩]
        ⟨"lib/a.dart", .ok "apiKey = \"your-api-key\""⟩ = [] := by
  constructor
  · exact c2_false_positive_suppression.1 "lib/a.dart" 1 "API Key"
      "k = \"your-api-key\"" "your-api-key" (by decide)
  · exact c2_false_positive_suppression.2.2 [⟨"API Key", fun _ => ["your-api-key"]⟩]
      ⟨"lib/a.dart", .ok "apiKey = \"your-api-key\""⟩
      (by
        intro r hr line value hv
        simp at hr
        subst hr
        simp at hv
        subst hv
        decide)

/-! ### C4 -/

/-- C4: a file whose read raises is caught: it contributes an empty
findings list, the operator log names the file, and the project scan
still completes, reporting exactly the findings of all other files
while still counting the unreadable file. -/
theorem c4_unreadable_file :
    ∀ (rules : List SecretRule) (path e : String) (a b : List SFile),
      scan_file rules ⟨path, .error e⟩ = []
      ∧ scan_file_log ⟨path, .error e⟩ = ["Error scanning " ++ path ++ ": " ++ e]
      ∧ (secrets_scan_project rules (a ++ ⟨path, .error e⟩ :: b) [] []).findings
          = (secrets_scan_project rules (a ++ b) [] []).findings
      ∧ (secrets_scan_project rules (a ++ ⟨path, .error e⟩ :: b) [] []).total_files_scanned
          = a.length + b.length + 1 := by
  intro rules path e a b
  refine ⟨rfl, rfl, ?_, ?_⟩
  · simp [secrets_scan_project, scan_file]
  · simp [secrets_scan_project]
    omega

/-! ### C5 -/

/-- C5: a manifest containing the backup-enabled attribute always yields
the HIGH finding; the MEDIUM not-configured finding fires exactly when
neither the disabled attribute nor a full-backup-content attribute is
present; and a manifest with the disabled attribute never gets the
not-configured finding. -/
theorem c5_backup_configuration :
    ∀ (mp content : String),
      (containsSub content "android:allowBackup=\"true\"" = true →
        backup_enabled_finding mp ∈
          scan_backup_configuration mp (some (.ok content)))
      ∧ (not_configured_finding mp ∈
          scan_backup_configuration mp (some (.ok content)) ↔
          (containsSub content "android:allowBackup=\"false\"" = false ∧
           containsSub content "android:fullBackupContent" = false))
      ∧ (containsSub content "android:allowBackup=\"false\"" = true →
          not_configured_finding mp ∉
            scan_backup_configuration mp (some (.ok content))) := by
  intro mp content
  have hne : not_configured_finding mp ≠ backup_enabled_finding mp := by
    simp [not_configured_finding, backup_enabled_finding]
  refine ⟨?_, ?_, ?_⟩
  · intro h
    cases hf : containsSub content "android:allowBackup=\"false\"" <;>
      cases hb : containsSub content "android:fullBackupContent" <;>
        simp [scan_backup_configuration, h, hf, hb]
  · cases hf : containsSub content "android:allowBackup=\"false\"" <;>
      cases hb : containsSub content "android:fullBackupContent" <;>
        cases ht : containsSub content "android:allowBackup=\"true\"" <;>
          simp [scan_backup_configuration, hf, hb, ht, hne]
  · intro h
    cases ht : containsSub content "android:allowBackup=\"true\"" <;>
      simp [scan_backup_configuration, h, ht, hne]

/-- Witness for C5 at two concrete manifests (backup enabled, and backup
explicitly disabled). -/
theorem c5_backup_configuration_witness :
    backup_enabled_finding "m" ∈
      scan_backup_configuration "m" (some (.ok "<application android:allowBackup=\"true\">"))
    ∧ not_configured_finding "m" ∈
      scan_backup_configuration "m" (some (.ok "<application android:allowBackup=\"true\">"))
    ∧ not_configured_finding "m" ∉
      scan_backup_configuration "m" (some (.ok "<application android:allowBackup=\"false\">")) := by
  refine ⟨(c5_backup_configuration "m" _).1 (by decide),
          ((c5_backup_configuration "m" _).2.1).2 ⟨by decide, by decide⟩,
          (c5_backup_configuration "m" _).2.2 (by decide)⟩

/-! ### C7 -/

/-- C7 documents a real asymmetry and is therefore amended: an absent
Android network-security-config does yield the MEDIUM missing-file
finding, but an absent iOS Info.plist makes the ATS check return no
findings at all (silently, though not fatally). -/
theorem c7_absent_artifact_findings :
    (∀ cp : String,
      check_android_network_security cp .missing = [network_config_missing_finding])
    ∧ network_config_missing_finding.severity = "MEDIUM"
    ∧ (∀ pp : String, check_ios_ats_configuration pp none = []) :=
  ⟨fun _ => rfl, rfl, fun _ => rfl⟩

/-- Counterexample to C7 as stated: the iOS ATS check on an absent
Info.plist emits no finding at all, in particular no MEDIUM finding for
the absence. -/
theorem c7_ios_absent_silent_counterexample :
    check_ios_ats_configuration "ios/Runner/Info.plist" none = [] := rfl

/-! ### C1 -/

/-- C1 (code-bug documentation): on an empty project the secrets and
storage scanners do report files-scanned = 0, total-findings = 0 and exit 0;
but the dependency scanner with a findings-free pubspec crashes (NameError
on the severity dictionary, modelled as `none`) instead of exiting 0, and
the network scanner on an empty project reports total-findings = 1 (the
missing network-security-config finding), not 0. -/
theorem c1_empty_project_exit_status :
    (∀ rules : List SecretRule,
      (secrets_scan_project rules [] [] []).total_files_scanned = 0
      ∧ (secrets_scan_project rules [] [] []).total_findings = 0
      ∧ secrets_main rules [] [] [] = 0)
    ∧ deps_main (some ⟨[], []⟩) none = none
    ∧ (∀ rules : List NetRule,
      (net_scan_project rules [] "cfg.xml" .missing "Info.plist" none).total_files_scanned = 0
      ∧ (net_scan_project rules [] "cfg.xml" .missing "Info.plist" none).total_findings = 1
      ∧ net_main rules [] "cfg.xml" .missing "Info.plist" none = some 0)
    ∧ (storage_scan_project [] "AndroidManifest.xml" none).total_files_scanned = 0
    ∧ (storage_scan_project [] "AndroidManifest.xml" none).total_findings = 0
    ∧ storage_main [] "AndroidManifest.xml" none = some 0 := by
  refine ⟨fun rules => ⟨rfl, rfl, rfl⟩, by decide, fun rules => ⟨rfl, rfl, rfl⟩,
    by decide, by decide, by decide⟩

/-! ### C3 -/

/-- Counterexample to C3 as stated: the storage scanner's
SharedPreferences check evaluates its patterns on a line whose trimmed
content begins with the single-line comment marker and emits a finding
from it. -/
theorem c3_storage_comment_counterexample :
    startsWith2 (pyStripS "// prefs.setString(\"token\", \"abc\");") "//" = true
    ∧ scan_shared_preferences_usage
        ⟨"lib/a.dart",
         .ok "import \"package:shared_preferences/s.dart\";\n// prefs.setString(\"token\", \"abc\");"⟩
      = [{ file := "lib/a.dart", line := 2,
           issue := "Token/Credential storage in unencrypted SharedPreferences",
           code := "// prefs.setString(\"token\", \"abc\");", severity := "HIGH",
           recommendation := "Use flutter_secure_storage instead" }] := by
  constructor <;> decide

/-- C3 amended: the secrets scanner's per-line scan and the network
scanner's HTTP-usage scan evaluate no pattern on a line whose trimmed
content begins with the single-line comment marker (the result is empty
for every rule table); the storage scanner's per-line functions have no
such skip. -/
theorem c3_comment_skip_secrets_network :
    ∀ line : String, startsWith2 (pyStripS line) "//" = true →
      (∀ (rules : List SecretRule) (path : String) (n : Nat),
        scan_line rules path n line = [])
      ∧ (∀ (rules : List NetRule) (path : String) (n : Nat),
        scan_http_line rules path n line = []) := by
  intro line h
  constructor
  · intro rules path n
    simp [scan_line, h]
  · intro rules path n
    simp [scan_http_line, h]

/-- Witness for C3 (amended) at a concrete comment line. -/
theorem c3_comment_skip_witness :
    scan_line [] "lib/a.dart" 1 "// apiKey = \"x\"" = []
    ∧ scan_http_line [] "lib/a.dart" 1 "// apiKey = \"x\"" = [] := by
  have h := c3_comment_skip_secrets_network "// apiKey = \"x\"" (by decide)
  exact ⟨h.1 [] "lib/a.dart" 1, h.2 [] "lib/a.dart" 1⟩

/-! ### C6 -/

/-- Counterexample to C6 as stated: the package flutter declared with the
exact constraint "any" yields no finding at all. -/
theorem c6_flutter_any_counterexample :
    ("flutter", PubVal.vstr "any") ∈ all_deps ⟨[("flutter", .vstr "any")], []⟩
    ∧ check_version_constraints ⟨[("flutter", .vstr "any")], []⟩ = [] := by
  constructor <;> decide

/-- Findings of the version-constraint check never name a package absent
from the scanned mapping's keys. -/
theorem filter_version_findings_nil (pkg : String) :
    ∀ l : List (String × PubVal), pkg ∉ l.map Prod.fst →
      (l.flatMap version_check_step).filter (fun f => f.package == pkg) = [] := by
  intro l
  induction l with
  | nil => intro _; rfl
  | cons kv t ih =>
    intro h
    simp only [List.map_cons, List.mem_cons, not_or] at h
    rw [List.flatMap_cons, List.filter_append, ih h.2, List.append_nil,
      List.filter_eq_nil_iff]
    intro f hf
    rw [version_check_step_package kv f hf]
    simp only [beq_iff_eq]
    exact fun e => h.1 e.symm

/-- On a mapping with pairwise-distinct keys, an entry with the exact
constraint "any" for a non-flutter package produces exactly the one
CRITICAL finding naming it. -/
theorem count_any_aux (pkg : String) (hne : pkg ≠ "flutter") :
    ∀ l : List (String × PubVal),
      (l.map Prod.fst).Nodup → (pkg, PubVal.vstr "any") ∈ l →
      (l.flatMap version_check_step).filter (fun f => f.package == pkg)
        = [any_finding pkg] := by
  intro l
  induction l with
  | nil => intro _ h; simp at h
  | cons kv t ih =>
    intro hnd hmem
    rw [List.map_cons, List.nodup_cons] at hnd
    rw [List.flatMap_cons, List.filter_append]
    rcases List.mem_cons.mp hmem with heq | hmem_t
    · rcases kv with ⟨k, v⟩
      rw [Prod.mk.injEq] at heq
      rcases heq with ⟨hk, hv⟩
      subst hk
      rw [← hv]
      have hstep : version_check_step (pkg, PubVal.vstr "any") = [any_finding pkg] := by
        simp [version_check_step, hne]
      rw [hstep]
      have hnotin : pkg ∉ t.map Prod.fst := hnd.1
      rw [filter_version_findings_nil pkg t hnotin, List.append_nil]
      simp [any_finding]
    · have hkey : pkg ∈ t.map Prod.fst :=
        List.mem_map.mpr ⟨(pkg, PubVal.vstr "any"), hmem_t, rfl⟩
      have hk : kv.1 ≠ pkg := fun e => hnd.1 (e ▸ hkey)
      have hhead : (version_check_step kv).filter (fun f => f.package == pkg) = [] := by
        rw [List.filter_eq_nil_iff]
        intro f hf
        rw [version_check_step_package kv f hf]
        simp only [beq_iff_eq]
        exact hk
      rw [hhead, List.nil_append]
      exact ih hnd.2 hmem_t

/-- C6 amended: for every pubspec whose merged dependency mapping has
dict-shaped (pairwise distinct) keys, every dependency other than flutter
declared with the exact constraint "any" yields exactly one finding
naming it, and that finding is CRITICAL. -/
theorem c6_any_constraint_unique_finding :
    ∀ (p : Pubspec) (pkg : String), pkg ≠ "flutter" →
      ((all_deps p).map Prod.fst).Nodup →
      (pkg, PubVal.vstr "any") ∈ all_deps p →
      (check_version_constraints p).filter (fun f => f.package == pkg)
          = [any_finding pkg]
      ∧ (any_finding pkg).severity = "CRITICAL" := by
  intro p pkg hne hnd hmem
  exact ⟨count_any_aux pkg hne (all_deps p) hnd hmem, rfl⟩

/-- Witness for C6 (amended) at a concrete pubspec declaring http with
the constraint "any". -/
theorem c6_any_constraint_unique_finding_witness :
    (check_version_constraints ⟨[("http", .vstr "any")], []⟩).filter
        (fun f => f.package == "http") = [any_finding "http"]
    ∧ (any_finding "http").severity = "CRITICAL" :=
  c6_any_constraint_unique_finding ⟨[("http", .vstr "any")], []⟩ "http"
    (by decide) (by decide) (by decide)

/-! ### C8 -/

/-- Counterexample to C8 as stated: the whole-file unencrypted-SQLite
finding is file-level yet carries line number 1, not 0. -/
theorem c8_sqflite_line_counterexample :
    (scan_database_security
        ⟨"lib/db.dart", .ok "import \"package:sqflite/sqflite.dart\";"⟩).map
      Finding.line = [1] := by
  decide

/-- C8 amended: every file-level finding carries line number 0 except the
whole-file unencrypted-SQLite finding of the database check, which
carries line number 1. -/
theorem c8_file_level_line_numbers :
    (∀ (mp : String) (m : Option (Except String String)) (f : Finding),
      f ∈ scan_backup_configuration mp m → f.line = 0)
    ∧ (∀ (cp : String) (cfg : XmlConfigFile) (f : Finding),
      f ∈ check_android_network_security cp cfg → f.line = 0)
    ∧ (∀ (fl : SFile) (f : Finding),
      f ∈ check_certificate_pinning fl → f.line = 0)
    ∧ (∀ (pp : String) (pl : Option (Except String String)) (f : Finding),
      f ∈ check_ios_ats_configuration pp pl → f.line = 0)
    ∧ (∀ (fl : SFile) (f : Finding), f ∈ scan_database_security fl →
      f.issue = "Unencrypted SQLite database" → f.line = 1) := by
  refine ⟨?_, ?_, ?_, ?_, ?_⟩
  · intro mp m f hmem
    match m with
    | none => simp [scan_backup_configuration] at hmem
    | some (.error e) => simp [scan_backup_configuration] at hmem
    | some (.ok content) =>
      simp only [scan_backup_configuration] at hmem
      rcases List.mem_append.mp hmem with h | h <;> split at h <;>
        simp_all [not_configured_finding, backup_enabled_finding]
  · intro cp cfg f hmem
    match cfg with
    | .missing =>
      simp only [check_android_network_security, List.mem_singleton] at hmem
      subst hmem; rfl
    | .parse_failed e => simp [check_android_network_security] at hmem
    | .parsed base_config pin_sets =>
      simp only [check_android_network_security] at hmem
      rcases List.mem_append.mp hmem with h | h
      · match base_config with
        | none => simp at h
        | some cl => split at h <;> simp_all
      · split at h <;> simp_all
  · intro fl f hmem
    rcases fl with ⟨p, c⟩
    cases c with
    | error e => simp [check_certificate_pinning] at hmem
    | ok content =>
      simp only [check_certificate_pinning] at hmem
      rcases List.mem_append.mp hmem with h | h <;> split at h <;> simp_all
  · intro pp pl f hmem
    match pl with
    | none => simp [check_ios_ats_configuration] at hmem
    | some (.error e) => simp [check_ios_ats_configuration] at hmem
    | some (.ok content) =>
      simp only [check_ios_ats_configuration] at hmem
      rcases List.mem_append.mp hmem with h | h <;> split at h <;> simp_all
  · intro fl f hmem hissue
    rcases fl with ⟨p, c⟩
    cases c with
    | error e => simp [scan_database_security] at hmem
    | ok content =>
      simp only [scan_database_security] at hmem
      rcases List.mem_append.mp hmem with h | h
      · split at h
        · simp only [List.mem_singleton] at h
          subst h; rfl
        · simp at h
      · rw [List.mem_flatMap] at h
        obtain ⟨q, _, hq⟩ := h
        split at hq
        · simp only [List.mem_singleton] at hq
          subst hq
          simp at hissue
        · simp at hq

/-- Witness for C8 (amended) at concrete inputs for a line-0 file-level
finding and the line-1 SQLite finding. -/
theorem c8_file_level_line_numbers_witness :
    (not_configured_finding "m").line = 0
    ∧ (sqflite_finding "lib/db.dart").line = 1 := by
  refine ⟨c8_file_level_line_numbers.1 "m" (some (.ok "x"))
      (not_configured_finding "m") (by decide), ?_⟩
  exact c8_file_level_line_numbers.2.2.2.2
    ⟨"lib/db.dart", .ok "import \"package:sqflite/sqflite.dart\";"⟩
    (sqflite_finding "lib/db.dart") (by decide) (by decide)

/-! ### C10 -/

/-- C10: the version-constraint check never emits a finding naming the
package flutter, whatever the pubspec contains. -/
theorem c10_flutter_never_named :
    ∀ (p : Pubspec) (f : DepFinding),
      f ∈ check_version_constraints p → f.package ≠ "flutter" := by
  intro p f hf
  rw [check_version_constraints, List.mem_flatMap] at hf
  obtain ⟨kv, _, hstep⟩ := hf
  rw [version_check_step_package kv f hstep]
  intro hk
  rcases kv with ⟨k, v⟩
  simp only at hk
  subst hk
  rw [version_check_step_flutter] at hstep
  simp at hstep

/-! ### C9 -/

/-- The four severity keys of the reporters' grouping dictionaries. -/
def severity_levels : List String := ["CRITICAL", "HIGH", "MEDIUM", "LOW"]

/-- Secrets findings always carry severity HIGH. -/
theorem scan_file_severity (rules : List SecretRule) (fl : SFile)
    (fd : SecretFinding) (h : fd ∈ scan_file rules fl) : fd.severity = "HIGH" := by
  rcases fl with ⟨p, c⟩
  cases c with
  | error e => simp [scan_file] at h
  | ok content =>
    simp only [scan_file] at h
    rw [List.mem_flatMap] at h
    obtain ⟨q, _, hq⟩ := h
    unfold scan_line at hq
    split at hq
    · simp at hq
    · rw [List.mem_flatMap] at hq
      obtain ⟨r, _, hr⟩ := hq
      rw [List.mem_filterMap] at hr
      obtain ⟨v, _, hv⟩ := hr
      unfold emit_match at hv
      split at hv
      · simp at hv
      · rw [Option.some.injEq] at hv
        subst hv; rfl

/-- HTTP-usage findings always carry severity HIGH. -/
theorem scan_http_usage_severity (rules : List NetRule) (fl : SFile)
    (fd : Finding) (h : fd ∈ scan_http_usage rules fl) : fd.severity = "HIGH" := by
  rcases fl with ⟨p, c⟩
  cases c with
  | error e => simp [scan_http_usage] at h
  | ok content =>
    simp only [scan_http_usage] at h
    rw [List.mem_flatMap] at h
    obtain ⟨q, _, hq⟩ := h
    unfold scan_http_line at hq
    split at hq
    · simp at hq
    · rw [List.mem_flatMap] at hq
      obtain ⟨r, _, hr⟩ := hq
      have := List.eq_of_mem_replicate hr
      subst this; rfl

/-- Certificate-pinning findings carry severity CRITICAL or MEDIUM. -/
theorem check_certificate_pinning_severity (fl : SFile) (fd : Finding)
    (h : fd ∈ check_certificate_pinning fl) :
    fd.severity ∈ severity_levels := by
  rcases fl with ⟨p, c⟩
  cases c with
  | error e => simp [check_certificate_pinning] at h
  | ok content =>
    simp only [check_certificate_pinning] at h
    rcases List.mem_append.mp h with h2 | h2 <;> split at h2 <;>
      simp_all [severity_levels]

/-- Android network-security-config findings carry severity MEDIUM or
HIGH. -/
theorem check_android_network_security_severity (cp : String)
    (cfg : XmlConfigFile) (fd : Finding)
    (h : fd ∈ check_android_network_security cp cfg) :
    fd.severity ∈ severity_levels := by
  match cfg with
  | .missing =>
    simp only [check_android_network_security, List.mem_singleton] at h
    subst h; simp [network_config_missing_finding, severity_levels]
  | .parse_failed e => simp [check_android_network_security] at h
  | .parsed base_config pin_sets =>
    simp only [check_android_network_security] at h
    rcases List.mem_append.mp h with h2 | h2
    · match base_config with
      | none => simp at h2
      | some cl => split at h2 <;> simp_all [severity_levels]
    · split at h2 <;> simp_all [severity_levels]

/-- iOS ATS findings carry severity CRITICAL or LOW. -/
theorem check_ios_ats_configuration_severity (pp : String)
    (pl : Option (Except String String)) (fd : Finding)
    (h : fd ∈ check_ios_ats_configuration pp pl) :
    fd.severity ∈ severity_levels := by
  match pl with
  | none => simp [check_ios_ats_configuration] at h
  | some (.error e) => simp [check_ios_ats_configuration] at h
  | some (.ok content) =>
    simp only [check_ios_ats_configuration] at h
    rcases List.mem_append.mp h with h2 | h2 <;> split at h2 <;>
      simp_all [severity_levels]

/-- SharedPreferences findings always carry severity HIGH. -/
theorem scan_shared_preferences_usage_severity (fl : SFile) (fd : Finding)
    (h : fd ∈ scan_shared_preferences_usage fl) : fd.severity = "HIGH" := by
  rcases fl with ⟨p, c⟩
  cases c with
  | error e => simp [scan_shared_preferences_usage] at h
  | ok content =>
    simp only [scan_shared_preferences_usage] at h
    split at h
    · rw [List.mem_flatMap] at h
      obtain ⟨q, _, hq⟩ := h
      rw [List.mem_flatMap] at hq
      obtain ⟨r, _, hr⟩ := hq
      split at hr
      · simp only [List.mem_singleton] at hr
        subst hr; rfl
      · simp at hr
    · simp at h

/-- File-storage findings always carry severity MEDIUM. -/
theorem scan_file_storage_severity (fl : SFile) (fd : Finding)
    (h : fd ∈ scan_file_storage fl) : fd.severity = "MEDIUM" := by
  rcases fl with ⟨p, c⟩
  cases c with
  | error e => simp [scan_file_storage] at h
  | ok content =>
    simp only [scan_file_storage] at h
    rw [List.mem_flatMap] at h
    obtain ⟨q, _, hq⟩ := h
    rw [List.mem_flatMap] at hq
    obtain ⟨r, _, hr⟩ := hq
    split at hr
    · split at hr
      · simp only [List.mem_singleton] at hr
        subst hr; rfl
      · simp at hr
    · simp at hr

/-- Database findings always carry severity HIGH. -/
theorem scan_database_security_severity (fl : SFile) (fd : Finding)
    (h : fd ∈ scan_database_security fl) : fd.severity = "HIGH" := by
  rcases fl with ⟨p, c⟩
  cases c with
  | error e => simp [scan_database_security] at h
  | ok content =>
    simp only [scan_database_security] at h
    rcases List.mem_append.mp h with h2 | h2
    · split at h2
      · simp only [List.mem_singleton] at h2
        subst h2; rfl
      · simp at h2
    · rw [List.mem_flatMap] at h2
      obtain ⟨q, _, hq⟩ := h2
      split at hq
      · simp only [List.mem_singleton] at hq
        subst hq; rfl
      · simp at hq

/-- Backup-configuration findings carry severity MEDIUM or HIGH. -/
theorem scan_backup_configuration_severity (mp : String)
    (m : Option (Except String String)) (fd : Finding)
    (h : fd ∈ scan_backup_configuration mp m) :
    fd.severity ∈ severity_levels := by
  match m with
  | none => simp [scan_backup_configuration] at h
  | some (.error e) => simp [scan_backup_configuration] at h
  | some (.ok content) =>
    simp only [scan_backup_configuration] at h
    rcases List.mem_append.mp h with h2 | h2 <;> split at h2 <;>
      simp_all [not_configured_finding, backup_enabled_finding, severity_levels]

/-- Version-constraint findings carry severity CRITICAL or HIGH. -/
theorem check_version_constraints_severity (p : Pubspec) (fd : DepFinding)
    (h : fd ∈ check_version_constraints p) : fd.severity ∈ severity_levels := by
  rw [check_version_constraints, List.mem_flatMap] at h
  obtain ⟨kv, _, hstep⟩ := h
  rcases kv with ⟨k, v⟩
  by_cases hk : k = "flutter"
  · simp [version_check_step, hk] at hstep
  · cases v with
    | vstr s =>
      by_cases hs : s = "any"
      · simp [version_check_step, hk, hs] at hstep
        subst hstep; simp [any_finding, severity_levels]
      · simp [version_check_step, hk, hs] at hstep
    | vnull =>
      simp [version_check_step, hk] at hstep
      subst hstep; simp [no_constraint_finding, severity_levels]
    | vother => simp [version_check_step, hk] at hstep

/-- Outdated-package findings carry severity HIGH or MEDIUM. -/
theorem analyze_outdated_results_severity (pkgs : List OutPkg) (fd : OutFinding)
    (h : fd ∈ analyze_outdated_results pkgs) : fd.severity ∈ severity_levels := by
  rw [analyze_outdated_results, List.mem_flatMap] at h
  obtain ⟨q, _, hq⟩ := h
  split at hq
  · split at hq <;>
      · simp only [List.mem_singleton] at hq
        subst hq; simp [severity_levels]
  · simp at hq

/-- Dangerous-package findings carry severity HIGH or MEDIUM. -/
theorem check_dangerous_packages_severity (p : Pubspec) (fd : DepFinding)
    (h : fd ∈ check_dangerous_packages p) : fd.severity ∈ severity_levels := by
  simp only [check_dangerous_packages] at h
  rcases List.mem_append.mp h with h2 | h2 <;> split at h2 <;>
    simp_all [severity_levels]

/-- The grouping dictionary never raises when every severity is one of
the four keys. -/
theorem group_by_severity_total :
    ∀ sevs : List String, (∀ s ∈ sevs, s ∈ severity_levels) →
      (group_by_severity sevs).isSome = true := by
  intro sevs
  induction sevs with
  | nil => intro _; rfl
  | cons s t ih =>
    intro h
    have ht := ih fun x hx => h x (List.mem_cons_of_mem s hx)
    have hs := h s (List.mem_cons_self s t)
    unfold group_by_severity
    rcases Option.isSome_iff_exists.mp ht with ⟨⟨c2, h2, m2, l2⟩, he⟩
    rw [he]
    simp only [severity_levels, List.mem_cons, List.not_mem_nil, or_false] at hs
    rcases hs with h1 | h1 | h1 | h1 <;> simp [h1]

/-- C9: every finding emitted by any scanning function carries one of the
four severities CRITICAL, HIGH, MEDIUM, LOW, and the reporters' grouping
dictionary (keyed by exactly those values) therefore never fails. -/
theorem c9_severities_valid :
    (∀ (rules : List SecretRule) (fl : SFile) (fd : SecretFinding),
      fd ∈ scan_file rules fl → fd.severity ∈ severity_levels)
    ∧ (∀ (rules : List NetRule) (fl : SFile) (fd : Finding),
      fd ∈ scan_http_usage rules fl → fd.severity ∈ severity_levels)
    ∧ (∀ (fl : SFile) (fd : Finding),
      fd ∈ check_certificate_pinning fl → fd.severity ∈ severity_levels)
    ∧ (∀ (cp : String) (cfg : XmlConfigFile) (fd : Finding),
      fd ∈ check_android_network_security cp cfg → fd.severity ∈ severity_levels)
    ∧ (∀ (pp : String) (pl : Option (Except String String)) (fd : Finding),
      fd ∈ check_ios_ats_configuration pp pl → fd.severity ∈ severity_levels)
    ∧ (∀ (fl : SFile) (fd : Finding),
      fd ∈ scan_shared_preferences_usage fl → fd.severity ∈ severity_levels)
    ∧ (∀ (fl : SFile) (fd : Finding),
      fd ∈ scan_file_storage fl → fd.severity ∈ severity_levels)
    ∧ (∀ (fl : SFile) (fd : Finding),
      fd ∈ scan_database_security fl → fd.severity ∈ severity_levels)
    ∧ (∀ (mp : String) (m : Option (Except String String)) (fd : Finding),
      fd ∈ scan_backup_configuration mp m → fd.severity ∈ severity_levels)
    ∧ (∀ (p : Pubspec) (fd : DepFinding),
      fd ∈ check_version_constraints p → fd.severity ∈ severity_levels)
    ∧ (∀ (pkgs : List OutPkg) (fd : OutFinding),
      fd ∈ analyze_outdated_results pkgs → fd.severity ∈ severity_levels)
    ∧ (∀ (p : Pubspec) (fd : DepFinding),
      fd ∈ check_dangerous_packages p → fd.severity ∈ severity_levels)
    ∧ (∀ sevs : List String, (∀ s ∈ sevs, s ∈ severity_levels) →
      (group_by_severity sevs).isSome = true) := by
  refine ⟨?_, ?_, check_certificate_pinning_severity,
    check_android_network_security_severity, check_ios_ats_configuration_severity,
    ?_, ?_, ?_, scan_backup_configuration_severity,
    check_version_constraints_severity, analyze_outdated_results_severity,
    check_dangerous_packages_severity, group_by_severity_total⟩
  · intro rules fl fd h
    rw [scan_file_severity rules fl fd h]
    simp [severity_levels]
  · intro rules fl fd h
    rw [scan_http_usage_severity rules fl fd h]
    simp [severity_levels]
  · intro fl fd h
    rw [scan_shared_preferences_usage_severity fl fd h]
    simp [severity_levels]
  · intro fl fd h
    rw [scan_file_storage_severity fl fd h]
    simp [severity_levels]
  · intro fl fd h
    rw [scan_database_security_severity fl fd h]
    simp [severity_levels]

/-- Witness for C9 at a concrete secrets rule and finding and a concrete
severity list. -/
theorem c9_severities_valid_witness :
    ({ file := "lib/a.dart", line := 1, type := "API Key", pattern := "x",
       severity := "HIGH" } : SecretFinding).severity ∈ severity_levels
    ∧ (group_by_severity ["HIGH", "MEDIUM"]).isSome = true := by
  constructor
  · exact c9_severities_valid.1 [⟨"API Key", fun _ => ["A1b2C3d4E5f6G7h8J9k0"]⟩]
      ⟨"lib/a.dart", .ok "x"⟩ _ (by decide)
  · exact c9_severities_valid.2.2.2.2.2.2.2.2.2.2.2.2 ["HIGH", "MEDIUM"] (by decide)

/-- Witness for C10 at a concrete pubspec declaring flutter and another
package with the constraint any. -/
theorem c10_flutter_never_named_witness :
    any_finding "http" ∈
      check_version_constraints ⟨[("flutter", .vstr "any"), ("http", .vstr "any")], []⟩
    ∧ (any_finding "http").package ≠ "flutter" := by
  have hmem : any_finding "http" ∈
      check_version_constraints ⟨[("flutter", .vstr "any"), ("http", .vstr "any")], []⟩ := by
    decide
  exact ⟨hmem, c10_flutter_never_named _ _ hmem⟩
